import Mathlib

/-!
Shallow embedding of the StreetSource real-time messaging core
(`src/backend/src/ws.rs` and `src/backend/src/handlers/message_handlers.rs`).

Modelling conventions:
* `Uuid` is a 128-bit value wrapped in a structure; `Uuid::new_v4()` is
  modelled by a fresh-counter field `nextUuid` of the database state
  (v4 uuids are assumed fresh).
* `serde_json::Value` is the inductive `Json`; an inbound text frame is
  either `Inbound.malformed` (serde parse failure) or `Inbound.parsed v`.
* SQL statements act on an explicit `Db` state; each statement may be made
  to fail through a `FailSpec` flag, and a failed statement leaves the
  state of everything already committed in place (there is no transaction
  in the source: every statement autocommits).
* The process-wide `SESSIONS` map and the per-connection unbounded
  channels are the `WsState`: an association list `sessions` mirroring the
  `HashMap<Uuid, UnboundedSender<String>>` plus per-handle pending queues.
* Timestamps (`NOW()`, `sent_at`, `last_updated`) are naturals read from
  the clock field `Db.now`.
-/

/-- 128-bit UUID value. -/
structure Uuid where
  val : Nat
deriving DecidableEq, Repr

/-- Hex digit value of a character, `None` if not a hex digit. -/
def hexVal (c : Char) : Option Nat :=
  if '0' ≤ c ∧ c ≤ '9' then some (c.toNat - '0'.toNat)
  else if 'a' ≤ c ∧ c ≤ 'f' then some (c.toNat - 'a'.toNat + 10)
  else if 'A' ≤ c ∧ c ≤ 'F' then some (c.toNat - 'A'.toNat + 10)
  else none

/-- Parse a big-endian hex digit list into a natural number. -/
def hexNat : List Char → Nat → Option Nat
  | [], acc => some acc
  | c :: cs, acc =>
    match hexVal c with
    | some v => hexNat cs (16 * acc + v)
    | none => none

/-- Model of `Uuid::parse_str`: accepts the hyphenated 8-4-4-4-12 form and
the simple 32-hex-digit form. -/
def uuidParse (s : String) : Option Uuid :=
  let parts := s.data.splitOn '-'
  if parts.map List.length = [8, 4, 4, 4, 12] ∨ parts.map List.length = [32] then
    (hexNat parts.flatten 0).map Uuid.mk
  else none

/-- Lower-case hex digit for a value below 16. -/
def hexDigit (n : Nat) : Char :=
  if n < 10 then Char.ofNat ('0'.toNat + n) else Char.ofNat ('a'.toNat + n - 10)

/-- Big-endian fixed-width hex rendering. -/
def hexChars (w n : Nat) : List Char :=
  (List.range w).map (fun i => hexDigit (n / 16 ^ (w - 1 - i) % 16))

/-- Canonical hyphenated rendering of a UUID (the `Serialize` form). -/
def uuidToString (u : Uuid) : String :=
  let cs := hexChars 32 (u.val % 2 ^ 128)
  String.mk (cs.take 8 ++ '-' ::
    ((cs.drop 8).take 4 ++ '-' ::
      ((cs.drop 12).take 4 ++ '-' ::
        ((cs.drop 16).take 4 ++ '-' :: cs.drop 20))))

/-- `serde_json::Value`. -/
inductive Json where
  | null : Json
  | bool (b : Bool) : Json
  | num (n : Int) : Json
  | str (s : String) : Json
  | arr (xs : List Json) : Json
  | obj (fields : List (String × Json)) : Json

/-- `value[key]` indexing on a `serde_json::Value`: `Null` when the value is
not an object or the key is absent. -/
def jsonIndex : Json → String → Json
  | .obj fields, k =>
    match fields.lookup k with
    | some v => v
    | none => .null
  | _, _ => .null

/-- `Value::as_str`. -/
def Json.asStr : Json → Option String
  | .str s => some s
  | _ => none

/-- An inbound text frame after `serde_json::from_str`. -/
inductive Inbound where
  | malformed : Inbound
  | parsed (v : Json) : Inbound

/-- `AppError` from `errors.rs` (the sqlx payload is kept as a string). -/
inductive AppError where
  | InternalError : AppError
  | BadRequest (s : String) : AppError
  | Unauthorized : AppError
  | Forbidden : AppError
  | NotFound (s : String) : AppError
  | Conflict (s : String) : AppError
  | DatabaseError (s : String) : AppError
  | PasswordHashError : AppError
  | AwsError (s : String) : AppError
  | InvalidOtp : AppError
  | OtpExpired : AppError
deriving DecidableEq, Repr

/-- The `Display` rendering of `AppError` (the `thiserror` attributes). -/
def AppError.toMessage : AppError → String
  | .InternalError => "Internal server error"
  | .BadRequest s => "Bad request: " ++ s
  | .Unauthorized => "Unauthorized"
  | .Forbidden => "Forbidden"
  | .NotFound s => "Not found: " ++ s
  | .Conflict s => "Conflict: " ++ s
  | .DatabaseError s => "Database error: " ++ s
  | .PasswordHashError => "Password hash error"
  | .AwsError s => "AWS error: " ++ s
  | .InvalidOtp => "Invalid OTP"
  | .OtpExpired => "OTP expired"

/-- Row of the `conversations` table. -/
structure Conversation where
  id : Uuid
  user1_id : Uuid
  user2_id : Uuid
  last_updated : Nat
deriving DecidableEq, Repr

/-- Row of the `messages` table (struct `Message` in `models.rs`). -/
structure Message where
  id : Uuid
  conv_id : Uuid
  sender_id : Uuid
  content : String
  sent_at : Nat
deriving DecidableEq, Repr

/-- Database state: the three tables the core touches, the clock and the
fresh-uuid counter. `users` is the projection `id ↦ name` (name nullable). -/
structure Db where
  conversations : List Conversation
  messages : List Message
  users : List (Uuid × Option String)
  now : Nat
  nextUuid : Nat
deriving DecidableEq, Repr

/-- Failure injection for the SQL statements of one router invocation. -/
structure FailSpec where
  convSelectFails : Bool
  convInsertFails : Bool
  msgInsertFails : Bool
  convUpdateFails : Bool
  nameFetchFails : Bool
deriving DecidableEq, Repr

/-- All statements succeed. -/
def noFail : FailSpec := ⟨false, false, false, false, false⟩

/-- `HashMap` lookup on an association list. -/
def mapGet {κ β : Type} [DecidableEq κ] : List (κ × β) → κ → Option β
  | [], _ => none
  | (k', v) :: rest, k => if k = k' then some v else mapGet rest k

/-- `HashMap::insert`: replace the first entry for the key or append. -/
def mapInsert {κ β : Type} [DecidableEq κ] : List (κ × β) → κ → β → List (κ × β)
  | [], k, v => [(k, v)]
  | (k', v') :: rest, k, v =>
    if k = k' then (k, v) :: rest else (k', v') :: mapInsert rest k v

/-- `HashMap::remove`: drop every entry for the key. -/
def mapRemove {κ β : Type} [DecidableEq κ] (l : List (κ × β)) (k : κ) : List (κ × β) :=
  l.filter (fun p => decide (¬ p.1 = k))

/-- Does a `conversations` row match the unordered pair, in the sense of the
`WHERE (user1_id = $1 AND user2_id = $2) OR (user1_id = $2 AND user2_id = $1)`
clause of `get_or_create_conversation`? -/
def convMatches (user1_id user2_id : Uuid) (c : Conversation) : Bool :=
  decide ((c.user1_id = user1_id ∧ c.user2_id = user2_id) ∨
          (c.user1_id = user2_id ∧ c.user2_id = user1_id))

/-- `get_or_create_conversation` from `message_handlers.rs`: SELECT the pair
in either order; on a hit return its id unchanged, otherwise INSERT a fresh
row `(new_v4, user1, user2, NOW())`. The returned `Db` is the state after
the call, also when a statement failed. -/
def get_or_create_conversation (fails : FailSpec) (db : Db)
    (user1_id user2_id : Uuid) : Except AppError Uuid × Db :=
  if fails.convSelectFails then (.error (.DatabaseError "select failed"), db)
  else
    match db.conversations.find? (convMatches user1_id user2_id) with
    | some c => (.ok c.id, db)
    | none =>
      if fails.convInsertFails then (.error (.DatabaseError "insert failed"), db)
      else
        let conv_id : Uuid := ⟨db.nextUuid⟩
        (.ok conv_id,
         { db with
             conversations :=
               db.conversations ++ [⟨conv_id, user1_id, user2_id, db.now⟩],
             nextUuid := db.nextUuid + 1 })

/-- `save_message` from `message_handlers.rs`: two separate autocommitted
statements — INSERT the message row (RETURNING it), then UPDATE the
conversation's `last_updated`. A failure of the UPDATE leaves the already
committed INSERT in place: there is no enclosing transaction in the source. -/
def save_message (fails : FailSpec) (db : Db) (conv_id sender_id : Uuid)
    (content : String) : Except AppError Message × Db :=
  let message_id : Uuid := ⟨db.nextUuid⟩
  if fails.msgInsertFails then (.error (.DatabaseError "insert failed"), db)
  else
    let message : Message := ⟨message_id, conv_id, sender_id, content, db.now⟩
    let db1 := { db with
                   messages := db.messages ++ [message],
                   nextUuid := db.nextUuid + 1 }
    if fails.convUpdateFails then (.error (.DatabaseError "update failed"), db1)
    else
      (.ok message,
       { db1 with
           conversations := db1.conversations.map
             (fun c => if c.id = conv_id then { c with last_updated := db1.now } else c) })

/-- The `SELECT name FROM users WHERE id = $1 ... fetch_one` of
`handle_client_message`; `fetch_one` errors when no row exists. -/
def fetch_sender_name (fails : FailSpec) (db : Db) (sender_id : Uuid) :
    Except AppError (Option String) :=
  if fails.nameFetchFails then .error (.DatabaseError "query failed")
  else
    match mapGet db.users sender_id with
    | some name => .ok name
    | none => .error (.DatabaseError "no rows returned")

/-- Channel handle id: identifies one `mpsc::unbounded_channel` pair
(the model of an `UnboundedSender<String>` / its receiver). -/
abbrev HandleId := Nat

/-- The process-wide connection state: the `SESSIONS`
`HashMap<Uuid, UnboundedSender<String>>`, the pending queue of every
channel, and the fresh-handle counter. -/
structure WsState where
  sessions : List (Uuid × HandleId)
  queues : List (HandleId × List Json)
  nextHandle : Nat

/-- Pending items of a channel (empty for an unknown handle). -/
def queueOf (ws : WsState) (h : HandleId) : List Json :=
  (mapGet ws.queues h).getD []

/-- `tx.send(frame)`: append to the channel's unbounded queue. The source
ignores the send result, so the push is total. -/
def pushFrame (ws : WsState) (h : HandleId) (f : Json) : WsState :=
  { ws with queues := mapInsert ws.queues h (queueOf ws h ++ [f]) }

/-- `rx.recv()`: pop the front of the channel's queue, if any. -/
def popFrame (ws : WsState) (h : HandleId) : Option (Json × WsState) :=
  match mapGet ws.queues h with
  | some (f :: rest) => some (f, { ws with queues := mapInsert ws.queues h rest })
  | _ => none

/-- The registration step of `websocket_handler`: create a fresh channel
and insert its sender into `SESSIONS` under the user's id. -/
def register_session (ws : WsState) (user_id : Uuid) : WsState × HandleId :=
  let h := ws.nextHandle
  ({ sessions := mapInsert ws.sessions user_id h,
     queues := mapInsert ws.queues h [],
     nextHandle := h + 1 }, h)

/-- The rendered delivered-message frame built by `handle_client_message`
(`json!` block): uuids and the timestamp serialize to JSON strings. -/
def wsMessageJson (saved : Message) (conv_id sender_id : Uuid)
    (sender_name : Option String) (content : String) : Json :=
  Json.obj
    [("type", Json.str "message"),
     ("id", Json.str (uuidToString saved.id)),
     ("conv_id", Json.str (uuidToString conv_id)),
     ("sender_id", Json.str (uuidToString sender_id)),
     ("sender_name",
       match sender_name with
       | some n => Json.str n
       | none => Json.null),
     ("content", Json.str content),
     ("sent_at", Json.str (toString saved.sent_at))]

/-- The error frame written by `handle_websocket` when the router fails. -/
def errorFrame (e : AppError) : Json :=
  Json.obj [("type", Json.str "error"), ("message", Json.str e.toMessage)]

/-- Result of one `handle_client_message` invocation: the Rust return value
plus the explicit post-states of the global `SESSIONS`/queues and the
database. -/
structure HcmResult where
  res : Except AppError Unit
  ws : WsState
  db : Db

/-- `handle_client_message` from `ws.rs`: parse, validate `receiver_id`
(string field that parses as a uuid) and `content` (string field), then
get-or-create the conversation, save the message, fetch the sender name,
and push the rendered frame to the receiver's and the sender's channels
when each is present in `SESSIONS`. Validation and persistence failures
return the error with the side effects already committed at that point. -/
def handle_client_message (ws : WsState) (db : Db) (fails : FailSpec)
    (sender_id : Uuid) (message : Inbound) : HcmResult :=
  match message with
  | .malformed => ⟨.error (.BadRequest "Invalid message format"), ws, db⟩
  | .parsed msg_data =>
    match (jsonIndex msg_data "receiver_id").asStr.bind uuidParse with
    | none => ⟨.error (.BadRequest "Missing receiver_id"), ws, db⟩
    | some receiver_id =>
      match (jsonIndex msg_data "content").asStr with
      | none => ⟨.error (.BadRequest "Missing content"), ws, db⟩
      | some content =>
        match get_or_create_conversation fails db sender_id receiver_id with
        | (.error e, db1) => ⟨.error e, ws, db1⟩
        | (.ok conv_id, db1) =>
          match save_message fails db1 conv_id sender_id content with
          | (.error e, db2) => ⟨.error e, ws, db2⟩
          | (.ok saved_message, db2) =>
            match fetch_sender_name fails db2 sender_id with
            | .error e => ⟨.error e, ws, db2⟩
            | .ok sender_name =>
              let ws_message :=
                wsMessageJson saved_message conv_id sender_id sender_name content
              let ws1 :=
                match mapGet ws.sessions receiver_id with
                | some tx => pushFrame ws tx ws_message
                | none => ws
              let ws2 :=
                match mapGet ws1.sessions sender_id with
                | some tx => pushFrame ws1 tx ws_message
                | none => ws1
              ⟨.ok (), ws2, db2⟩

/-- One firing of the `tokio::select!` in `handle_websocket`, as chosen by
the environment: an inbound text frame (with the failure injection for its
database work and for the error-frame write), a close frame, another frame
kind (ignored), a transport read error, or the own channel yielding a
delivery (with a flag for the write to the wire failing). -/
inductive ConnEvent where
  | text (payload : Inbound) (fails : FailSpec) (errWriteFails : Bool) : ConnEvent
  | closeFrame : ConnEvent
  | otherFrame : ConnEvent
  | readErr : ConnEvent
  | deliver (writeFails : Bool) : ConnEvent

/-- State left by a connection handler run: global state, database, and the
text frames this handler wrote to its own peer. -/
structure ConnResult where
  ws : WsState
  db : Db
  wire : List Json

/-- The `handle_websocket` loop of `ws.rs`, driven by an event trace.
Router failure writes one error frame to this peer and continues; a close
frame, a read error or a write failure exits the loop; a delivery pops the
own channel and writes the frame to the peer; trace exhaustion is the
`else => break` of the `select!`. -/
def handle_websocket (user_id : Uuid) (h : HandleId) :
    List ConnEvent → WsState → Db → List Json → ConnResult
  | [], ws, db, wire => ⟨ws, db, wire⟩
  | ev :: rest, ws, db, wire =>
    match ev with
    | .text payload fails errWriteFails =>
      match handle_client_message ws db fails user_id payload with
      | ⟨.ok _, ws1, db1⟩ => handle_websocket user_id h rest ws1 db1 wire
      | ⟨.error e, ws1, db1⟩ =>
        if errWriteFails then ⟨ws1, db1, wire⟩
        else handle_websocket user_id h rest ws1 db1 (wire ++ [errorFrame e])
    | .closeFrame => ⟨ws, db, wire⟩
    | .otherFrame => handle_websocket user_id h rest ws db wire
    | .readErr => ⟨ws, db, wire⟩
    | .deliver writeFails =>
      match popFrame ws h with
      | none => handle_websocket user_id h rest ws db wire
      | some (f, ws1) =>
        if writeFails then ⟨ws1, db, wire⟩
        else handle_websocket user_id h rest ws1 db (wire ++ [f])

/-- The task spawned by `websocket_handler`: run `handle_websocket`
(discarding its result) and then unconditionally
`sessions.remove(&user_id)`. -/
def connection_task (user_id : Uuid) (h : HandleId) (events : List ConnEvent)
    (ws : WsState) (db : Db) : ConnResult :=
  let r := handle_websocket user_id h events ws db []
  ⟨{ r.ws with sessions := mapRemove r.ws.sessions user_id }, r.db, r.wire⟩

/-- One row of the `get_messages` response (message joined with the
sender's name). -/
structure MessageView where
  id : Uuid
  sender_id : Uuid
  sender_name : Option String
  content : String
  sent_at : Nat
deriving DecidableEq, Repr

/-- `get_messages` from `message_handlers.rs`: check the requester is a
participant of the conversation (`EXISTS` query), else `Forbidden`; then
return the conversation's messages inner-joined with `users` and ordered
by `sent_at` ascending. -/
def get_messages (db : Db) (user_id conv_id : Uuid) :
    Except AppError (List MessageView) :=
  let is_participant := db.conversations.any
    (fun c => decide (c.id = conv_id ∧ (c.user1_id = user_id ∨ c.user2_id = user_id)))
  if !is_participant then .error .Forbidden
  else
    let joined := (db.messages.filter (fun m => decide (m.conv_id = conv_id))).filterMap
      (fun m => (mapGet db.users m.sender_id).map
        (fun name => MessageView.mk m.id m.sender_id name m.content m.sent_at))
    .ok (joined.insertionSort (fun a b => a.sent_at ≤ b.sent_at))

/-- No two rows of `conversations` cover the same unordered user pair. -/
def noDupPairs (db : Db) : Prop :=
  db.conversations.Pairwise
    (fun c1 c2 => ¬ convMatches c1.user1_id c1.user2_id c2)

/-! ### Concrete fixtures -/

/-- Test user A. -/
def uA : Uuid := ⟨1⟩

/-- Test user B. -/
def uB : Uuid := ⟨2⟩

/-- A database with two users, no conversations, no messages. -/
def dbW : Db := ⟨[], [], [(uA, some "Alice"), (uB, some "Bob")], 5, 10⟩

/-- Empty connection state. -/
def wsEmpty : WsState := ⟨[], [], 0⟩

/-- A payload with a valid receiver uuid and empty string content. -/
def emptyContentPayload : Json :=
  Json.obj [("receiver_id", Json.str "00000000-0000-0000-0000-000000000002"),
            ("content", Json.str "")]

/-- Failure injection in which only the conversation UPDATE fails. -/
def updateFailSpec : FailSpec := ⟨false, false, false, true, false⟩

/-- A database holding one conversation between `uA` and `uB`. -/
def dbWithConv : Db :=
  ⟨[⟨⟨7⟩, uA, uB, 0⟩], [], [(uA, some "Alice"), (uB, some "Bob")], 5, 10⟩

/-- State with user A connected (channel handle 0). -/
def wsA : WsState := (register_session wsEmpty uA).1

/-- State with users A (handle 0) and B (handle 1) connected. -/
def wsAB : WsState := (register_session wsA uB).1

/-- Inbound payload from A to B, content "hi". -/
def payloadToB : Json :=
  Json.obj [("receiver_id", Json.str "00000000-0000-0000-0000-000000000002"),
            ("content", Json.str "hi")]

/-- Inbound payload addressed to A, content "hi". -/
def payloadToA : Json :=
  Json.obj [("receiver_id", Json.str "00000000-0000-0000-0000-000000000001"),
            ("content", Json.str "hi")]

instance : IsTotal MessageView (fun a b => a.sent_at ≤ b.sent_at) :=
  ⟨fun a b => Nat.le_total a.sent_at b.sent_at⟩

instance : IsTrans MessageView (fun a b => a.sent_at ≤ b.sent_at) :=
  ⟨fun _ _ _ => Nat.le_trans⟩

/-- Third user, not a participant of any conversation. -/
def uC : Uuid := ⟨3⟩

/-- Database with one A-B conversation and two of its messages stored out
of timestamp order. -/
def dbC10 : Db :=
  ⟨[⟨⟨7⟩, uA, uB, 0⟩],
   [⟨⟨21⟩, ⟨7⟩, uA, "later", 9⟩, ⟨⟨22⟩, ⟨7⟩, uB, "early", 3⟩],
   [(uA, some "Alice"), (uB, some "Bob")], 5, 30⟩

/-! ### Association-map lemmas -/

theorem mapGet_mapInsert_self {κ β : Type} [DecidableEq κ] (l : List (κ × β)) (k : κ) (v : β) :
    mapGet (mapInsert l k v) k = some v := by
  induction l with
  | nil => simp [mapInsert, mapGet]
  | cons p rest ih =>
    obtain ⟨a, b⟩ := p
    by_cases h : k = a
    · simp [mapInsert, mapGet, h]
    · simp [mapInsert, mapGet, h, ih]

theorem mapGet_mapInsert_ne {κ β : Type} [DecidableEq κ] (l : List (κ × β)) (k k' : κ) (v : β)
    (hne : k' ≠ k) : mapGet (mapInsert l k v) k' = mapGet l k' := by
  induction l with
  | nil => simp [mapInsert, mapGet, hne]
  | cons p rest ih =>
    obtain ⟨a, b⟩ := p
    by_cases h : k = a
    · subst h
      simp [mapInsert, mapGet, hne]
    · by_cases h' : k' = a <;> simp [mapInsert, mapGet, h, h', ih]

theorem mapGet_mapRemove_self {κ β : Type} [DecidableEq κ] (l : List (κ × β)) (k : κ) :
    mapGet (mapRemove l k) k = none := by
  induction l with
  | nil => rfl
  | cons p rest ih =>
    obtain ⟨a, b⟩ := p
    by_cases h : a = k
    · subst h
      simpa [mapRemove] using ih
    · have hne : ¬ k = a := fun hh => h hh.symm
      simpa [mapRemove, h, mapGet, hne] using ih

theorem pushFrame_sessions (ws : WsState) (h : HandleId) (f : Json) :
    (pushFrame ws h f).sessions = ws.sessions := rfl

theorem queueOf_pushFrame_self (ws : WsState) (h : HandleId) (f : Json) :
    queueOf (pushFrame ws h f) h = queueOf ws h ++ [f] := by
  simp [queueOf, pushFrame, mapGet_mapInsert_self]

theorem queueOf_pushFrame_ne (ws : WsState) (h h' : HandleId) (f : Json)
    (hne : h' ≠ h) : queueOf (pushFrame ws h f) h' = queueOf ws h' := by
  simp [queueOf, pushFrame, mapGet_mapInsert_ne _ _ _ _ hne]

/-! ### Conversation-pair lemmas -/

theorem convMatches_comm (a b : Uuid) : convMatches a b = convMatches b a := by
  funext c
  simp only [convMatches]
  exact decide_eq_decide.mpr (by tauto)

theorem convMatches_flip (a b : Uuid) (c x : Conversation)
    (hu1 : x.user1_id = a) (hu2 : x.user2_id = b) :
    convMatches c.user1_id c.user2_id x = convMatches a b c := by
  simp only [convMatches, hu1, hu2]
  refine decide_eq_decide.mpr ?_
  constructor
  · rintro (⟨h1, h2⟩ | ⟨h1, h2⟩)
    · exact Or.inl ⟨h1.symm, h2.symm⟩
    · exact Or.inr ⟨h2.symm, h1.symm⟩
  · rintro (⟨h1, h2⟩ | ⟨h1, h2⟩)
    · exact Or.inl ⟨h1.symm, h2.symm⟩
    · exact Or.inr ⟨h2.symm, h1.symm⟩

/-- C3: `get_or_create_conversation` is idempotent (a repeated call returns
the existing conversation's id and inserts nothing) and symmetric in its
two user arguments, and it preserves the at-most-one-conversation-per-
unordered-pair invariant. -/
theorem get_or_create_conversation_idempotent_symmetric
    (db : Db) (a b cid : Uuid) (db' : Db)
    (h : get_or_create_conversation noFail db a b = (.ok cid, db')) :
    get_or_create_conversation noFail db' a b = (.ok cid, db') ∧
    get_or_create_conversation noFail db' b a = (.ok cid, db') ∧
    (noDupPairs db → noDupPairs db') := by
  rcases hf : db.conversations.find? (convMatches a b) with _ | c
  · simp only [get_or_create_conversation, noFail, hf, Bool.false_eq_true, if_false,
      Prod.mk.injEq, Except.ok.injEq] at h
    obtain ⟨hcid, hdb⟩ := h
    subst hdb
    have hmatch : convMatches a b (⟨⟨db.nextUuid⟩, a, b, db.now⟩ : Conversation) = true := by
      simp [convMatches]
    have hfind1 :
        (db.conversations ++ [(⟨⟨db.nextUuid⟩, a, b, db.now⟩ : Conversation)]).find?
          (convMatches a b) = some ⟨⟨db.nextUuid⟩, a, b, db.now⟩ := by
      rw [List.find?_append, hf]
      simp [hmatch]
    have hfind2 :
        (db.conversations ++ [(⟨⟨db.nextUuid⟩, a, b, db.now⟩ : Conversation)]).find?
          (convMatches b a) = some ⟨⟨db.nextUuid⟩, a, b, db.now⟩ := by
      rw [List.find?_append, ← convMatches_comm, hf]
      simp [hmatch]
    refine ⟨?_, ?_, ?_⟩
    · simp only [get_or_create_conversation, noFail, Bool.false_eq_true, if_false, hfind1]
      simp [← hcid]
    · simp only [get_or_create_conversation, noFail, Bool.false_eq_true, if_false, hfind2]
      simp [← hcid]
    · intro hnd
      unfold noDupPairs at hnd ⊢
      simp only [List.pairwise_append]
      refine ⟨hnd, by simp, ?_⟩
      intro c1 hc1 c2 hc2
      simp only [List.mem_singleton] at hc2
      subst hc2
      have := (List.find?_eq_none.mp hf) c1 hc1
      rw [convMatches_flip a b c1 _ rfl rfl]
      simpa using this
  · simp only [get_or_create_conversation, noFail, hf, Bool.false_eq_true, if_false,
      Prod.mk.injEq, Except.ok.injEq] at h
    obtain ⟨hcid, hdb⟩ := h
    subst hdb
    have hfind2 : db.conversations.find? (convMatches b a) = some c := by
      rw [← convMatches_comm]
      exact hf
    refine ⟨?_, ?_, fun hnd => hnd⟩
    · simp [get_or_create_conversation, noFail, hf, hcid]
    · simp [get_or_create_conversation, noFail, hfind2, hcid]

/-- C5: for every event trace — hence every way the read/deliver loop can
exit: trace end, close frame, transport read error, error-frame or
delivery write failure — the spawned connection task removes the user's
SESSIONS entry after the loop: a handler never exits leaving a
registration for its user behind. -/
theorem connection_task_unregisters
    (user_id : Uuid) (h : HandleId) (events : List ConnEvent)
    (ws : WsState) (db : Db) :
    mapGet (connection_task user_id h events ws db).ws.sessions user_id = none := by
  simp [connection_task, mapGet_mapRemove_self]

/-- C2 counterexample: user `uA` registers twice (handles 0 then 1); the
newer entry is visible, but after the first (stale) handler's task runs
its cleanup, lookup returns nothing — not the newer handle 1, which the
claim said survives. -/
theorem stale_cleanup_clobbers_newer_registration :
    mapGet ((register_session (register_session wsEmpty uA).1 uA).1).sessions uA = some 1 ∧
    mapGet (connection_task uA 0 []
      (register_session (register_session wsEmpty uA).1 uA).1 dbW).ws.sessions uA = none := by
  constructor <;> rfl

/-- C2 amended: the cleanup in `websocket_handler` is an unconditional
`sessions.remove(&user_id)`, so when a second connection has registered a
newer handle for the same user and the stale handler then exits, the
newer registration does not survive: lookup for the user returns nothing
after the stale handler's cleanup. -/
theorem stale_cleanup_removes_newer
    (ws0 : WsState) (db : Db) (u : Uuid) (events : List ConnEvent) :
    (register_session ws0 u).2 ≠ (register_session (register_session ws0 u).1 u).2 ∧
    mapGet ((register_session (register_session ws0 u).1 u).1).sessions u
      = some ((register_session (register_session ws0 u).1 u).2) ∧
    mapGet (connection_task u (register_session ws0 u).2 events
      ((register_session (register_session ws0 u).1 u).1) db).ws.sessions u = none := by
  refine ⟨?_, ?_, ?_⟩
  · simp [register_session]
  · simp [register_session, mapGet_mapInsert_self]
  · simp [connection_task, mapGet_mapRemove_self]

/-- Characterization of a successful router invocation: under a payload
with a uuid-parsing `receiver_id` string and a string `content`, all
statements succeeding and the sender present in `users`, the router
persists exactly one new message row and pushes the rendered frame to the
receiver's channel (when registered) and then to the sender's channel
(when registered). -/
theorem handle_client_message_ok
    (ws : WsState) (db : Db) (s r : Uuid) (v : Json) (rs c : String) (nm : Option String)
    (hr : jsonIndex v "receiver_id" = Json.str rs)
    (hru : uuidParse rs = some r)
    (hc : jsonIndex v "content" = Json.str c)
    (hn : mapGet db.users s = some nm) :
    ∃ saved : Message, ∃ conv_id : Uuid,
      saved.content = c ∧ saved.sender_id = s ∧ saved.conv_id = conv_id ∧
      (handle_client_message ws db noFail s (.parsed v)).res = .ok () ∧
      (handle_client_message ws db noFail s (.parsed v)).db.messages
        = db.messages ++ [saved] ∧
      (handle_client_message ws db noFail s (.parsed v)).ws =
        (let f := wsMessageJson saved conv_id s nm c
         let ws1 :=
           match mapGet ws.sessions r with
           | some tx => pushFrame ws tx f
           | none => ws
         match mapGet ws1.sessions s with
         | some tx => pushFrame ws1 tx f
         | none => ws1) := by
  have hrecv : (jsonIndex v "receiver_id").asStr.bind uuidParse = some r := by
    rw [hr]
    simp [Json.asStr, hru]
  have hcont : (jsonIndex v "content").asStr = some c := by
    rw [hc]
    simp [Json.asStr]
  rcases hf : db.conversations.find? (convMatches s r) with _ | cexist
  · refine ⟨⟨⟨db.nextUuid + 1⟩, ⟨db.nextUuid⟩, s, c, db.now⟩, ⟨db.nextUuid⟩,
      rfl, rfl, rfl, ?_, ?_, ?_⟩ <;>
      simp [handle_client_message, hrecv, hcont, get_or_create_conversation,
        save_message, fetch_sender_name, noFail, hf, hn]
  · refine ⟨⟨⟨db.nextUuid⟩, cexist.id, s, c, db.now⟩, cexist.id,
      rfl, rfl, rfl, ?_, ?_, ?_⟩ <;>
      simp [handle_client_message, hrecv, hcont, get_or_create_conversation,
        save_message, fetch_sender_name, noFail, hf, hn]

/-- C1 counterexample: on the concrete payload whose `content` is the
empty string (receiver uuid valid), `handle_client_message` does not
return a validation error — it succeeds and persists one message — so the
claim that empty content yields an error frame and zero persisted
messages is false on the code. -/
theorem empty_content_accepted_concrete :
    (handle_client_message wsEmpty dbW noFail uA (.parsed emptyContentPayload)).res
      = .ok () ∧
    (handle_client_message wsEmpty dbW noFail uA
      (.parsed emptyContentPayload)).db.messages.length = 1 := by
  constructor <;> rfl

/-- C1 amended: `handle_client_message` only rejects a missing or
non-string `content` field; an empty string content is accepted like any
other — with a valid uuid `receiver_id`, all statements succeeding and the
sender present in `users`, it returns Ok and persists exactly one message
whose content is the empty string. -/
theorem empty_content_persisted
    (ws : WsState) (db : Db) (s r : Uuid) (v : Json) (rs : String) (nm : Option String)
    (hr : jsonIndex v "receiver_id" = Json.str rs)
    (hru : uuidParse rs = some r)
    (hc : jsonIndex v "content" = Json.str "")
    (hn : mapGet db.users s = some nm) :
    (handle_client_message ws db noFail s (.parsed v)).res = .ok () ∧
    ∃ saved : Message,
      (handle_client_message ws db noFail s (.parsed v)).db.messages
        = db.messages ++ [saved] ∧ saved.content = "" ∧ saved.sender_id = s := by
  obtain ⟨saved, conv_id, hcontent, hsender, _, hres, hmsgs, _⟩ :=
    handle_client_message_ok ws db s r v rs "" nm hr hru hc hn
  exact ⟨hres, saved, hmsgs, hcontent, hsender⟩

/-- Witness for C1's amended theorem at a concrete payload and database. -/
theorem empty_content_persisted_witness :
    (handle_client_message wsEmpty dbW noFail uA (.parsed emptyContentPayload)).res
      = .ok () ∧
    ∃ saved : Message,
      (handle_client_message wsEmpty dbW noFail uA
        (.parsed emptyContentPayload)).db.messages
        = dbW.messages ++ [saved] ∧ saved.content = "" ∧ saved.sender_id = uA :=
  empty_content_persisted wsEmpty dbW uA uB emptyContentPayload
    "00000000-0000-0000-0000-000000000002" (some "Alice") rfl rfl rfl rfl

/-- On any router failure the global connection state is untouched: the
fan-out runs only after every fallible step has succeeded, so no
delivered-message frame is pushed to any channel. -/
theorem handle_client_message_error_no_push
    (ws : WsState) (db : Db) (fails : FailSpec) (u : Uuid) (inb : Inbound)
    (e : AppError) (herr : (handle_client_message ws db fails u inb).res = .error e) :
    (handle_client_message ws db fails u inb).ws = ws := by
  cases inb with
  | malformed => rfl
  | parsed v =>
    simp only [handle_client_message] at herr ⊢
    rcases hrv : (jsonIndex v "receiver_id").asStr.bind uuidParse with _ | r
    · simp [hrv]
    · rcases hcv : (jsonIndex v "content").asStr with _ | c
      · simp [hrv, hcv]
      · rcases hg : get_or_create_conversation fails db u r with ⟨resg, db1⟩
        cases resg with
        | error eg => simp [hrv, hcv, hg]
        | ok cid =>
          rcases hsv : save_message fails db1 cid u c with ⟨ress, db2⟩
          cases ress with
          | error es => simp [hrv, hcv, hg, hsv]
          | ok saved =>
            rcases hfn : fetch_sender_name fails db2 u with efn | nmv
            · simp [hrv, hcv, hg, hsv, hfn]
            · simp [hrv, hcv, hg, hsv, hfn] at herr

/-- C4 counterexample: with the `last_updated` UPDATE failing,
`save_message` returns an error while the message row is already
committed and no conversation row was touched — an observable state in
which one of the two writes happened without the other. -/
theorem save_message_not_atomic_concrete :
    (save_message updateFailSpec dbWithConv ⟨7⟩ uA "hi").1
      = .error (.DatabaseError "update failed") ∧
    (save_message updateFailSpec dbWithConv ⟨7⟩ uA "hi").2.messages.length = 1 ∧
    (save_message updateFailSpec dbWithConv ⟨7⟩ uA "hi").2.conversations
      = [⟨⟨7⟩, uA, uB, 0⟩] :=
  ⟨rfl, rfl, rfl⟩

/-- C4 amended: when `handle_client_message` fails, the sender gets exactly
one error frame and no delivered-message frame is pushed to any channel
(the connection state is untouched and the loop continues); but the append
operation is not atomic: `save_message` runs the message INSERT and the
`last_updated` UPDATE as two autocommitted statements, and a failure of
the UPDATE leaves the inserted message row behind with every conversation
row unchanged. -/
theorem persistence_failure_one_error_frame_but_save_message_not_atomic
    (ws : WsState) (db : Db) (fails : FailSpec) (u : Uuid) (inb : Inbound)
    (h : HandleId) (rest : List ConnEvent) (wire : List Json) (e : AppError)
    (herr : (handle_client_message ws db fails u inb).res = .error e) :
    (handle_client_message ws db fails u inb).ws = ws ∧
    handle_websocket u h (.text inb fails false :: rest) ws db wire
      = handle_websocket u h rest ws ((handle_client_message ws db fails u inb).db)
          (wire ++ [errorFrame e]) ∧
    ∀ (db' : Db) (conv_id sender : Uuid) (content : String),
      (save_message updateFailSpec db' conv_id sender content).1
        = .error (.DatabaseError "update failed") ∧
      (save_message updateFailSpec db' conv_id sender content).2.messages
        = db'.messages ++ [⟨⟨db'.nextUuid⟩, conv_id, sender, content, db'.now⟩] ∧
      (save_message updateFailSpec db' conv_id sender content).2.conversations
        = db'.conversations := by
  have hws := handle_client_message_error_no_push ws db fails u inb e herr
  refine ⟨hws, ?_, fun db' conv_id sender content => ⟨rfl, rfl, rfl⟩⟩
  have hfull : handle_client_message ws db fails u inb
      = ⟨.error e, ws, (handle_client_message ws db fails u inb).db⟩ := by
    rcases hh : handle_client_message ws db fails u inb with ⟨res, ws', db'⟩
    rw [hh] at herr hws
    simp only at herr hws
    rw [herr, hws]
  rw [show handle_websocket u h (.text inb fails false :: rest) ws db wire
      = (match handle_client_message ws db fails u inb with
         | ⟨.ok _, ws1, db1⟩ => handle_websocket u h rest ws1 db1 wire
         | ⟨.error e2, ws1, db1⟩ =>
           if false then ⟨ws1, db1, wire⟩
           else handle_websocket u h rest ws1 db1 (wire ++ [errorFrame e2])) from rfl]
  rw [hfull]
  simp

/-- Witness for C4's amended theorem at a concrete failing invocation. -/
theorem persistence_failure_witness :
    (handle_client_message wsEmpty dbW noFail uA .malformed).ws = wsEmpty ∧
    handle_websocket uA 0 [.text .malformed noFail false] wsEmpty dbW []
      = handle_websocket uA 0 [] wsEmpty
          ((handle_client_message wsEmpty dbW noFail uA .malformed).db)
          ([] ++ [errorFrame (.BadRequest "Invalid message format")]) ∧
    ∀ (db' : Db) (conv_id sender : Uuid) (content : String),
      (save_message updateFailSpec db' conv_id sender content).1
        = .error (.DatabaseError "update failed") ∧
      (save_message updateFailSpec db' conv_id sender content).2.messages
        = db'.messages ++ [⟨⟨db'.nextUuid⟩, conv_id, sender, content, db'.now⟩] ∧
      (save_message updateFailSpec db' conv_id sender content).2.conversations
        = db'.conversations :=
  persistence_failure_one_error_frame_but_save_message_not_atomic
    wsEmpty dbW noFail uA .malformed 0 [] []
    (.BadRequest "Invalid message format") rfl

/-- C8: on malformed JSON, a missing `receiver_id`, or a `receiver_id`
that does not parse as a uuid, `handle_client_message` returns a
validation error with database and connection state untouched, and the
connection handler writes exactly one error frame of shape
type=error/message back to the same connection and continues its loop
without closing the connection. -/
theorem malformed_input_one_error_frame
    (ws : WsState) (db : Db) (fails : FailSpec) (u : Uuid) (h : HandleId)
    (inb : Inbound) (rest : List ConnEvent) (wire : List Json)
    (hbad : inb = .malformed ∨
      ∃ v, inb = .parsed v ∧ (jsonIndex v "receiver_id").asStr.bind uuidParse = none) :
    ∃ msg : String,
      handle_client_message ws db fails u inb = ⟨.error (.BadRequest msg), ws, db⟩ ∧
      errorFrame (.BadRequest msg)
        = Json.obj [("type", Json.str "error"),
                    ("message", Json.str ("Bad request: " ++ msg))] ∧
      handle_websocket u h (.text inb fails false :: rest) ws db wire
        = handle_websocket u h rest ws db (wire ++ [errorFrame (.BadRequest msg)]) := by
  rcases hbad with rfl | ⟨v, rfl, hv⟩
  · refine ⟨"Invalid message format", rfl, rfl, ?_⟩
    simp [handle_websocket, handle_client_message]
  · have hcm : handle_client_message ws db fails u (.parsed v)
        = ⟨.error (.BadRequest "Missing receiver_id"), ws, db⟩ := by
      simp [handle_client_message, hv]
    exact ⟨"Missing receiver_id", hcm, rfl, by simp [handle_websocket, hcm]⟩

/-- Witness for C8 at a concrete malformed frame. -/
theorem malformed_input_witness :
    ∃ msg : String,
      handle_client_message wsEmpty dbW noFail uA .malformed
        = ⟨.error (.BadRequest msg), wsEmpty, dbW⟩ ∧
      errorFrame (.BadRequest msg)
        = Json.obj [("type", Json.str "error"),
                    ("message", Json.str ("Bad request: " ++ msg))] ∧
      handle_websocket uA 0 [.text .malformed noFail false, .closeFrame] wsEmpty dbW []
        = handle_websocket uA 0 [.closeFrame] wsEmpty dbW
            ([] ++ [errorFrame (.BadRequest msg)]) :=
  malformed_input_one_error_frame wsEmpty dbW noFail uA 0 .malformed
    [.closeFrame] [] (Or.inl rfl)

/-- C6 counterexample: a valid routed self-send with the receiver
registered — receiver equal to sender — pushes TWO delivered-message
frames to the receiver's channel (fan-out plus echo), so the claim's
unconditional "exactly one frame is pushed to the receiver's handle" is
false on the code. -/
theorem self_send_two_frames_to_receiver_handle :
    (queueOf (handle_client_message wsA dbW noFail uA
      (.parsed payloadToA)).ws 0).length = 2 := rfl

/-- C6 amended: for a valid routed message whose receiver's channel is not
the sender's own channel, if the receiver is registered at routing time
exactly one delivered-message frame is pushed to the receiver's channel —
the JSON object with type "message", id and sent_at from the persisted
row, conv_id, sender_id, sender_name, and the inbound content; if the
receiver is not registered, nothing is pushed to the receiver while the
message is still persisted and the router still succeeds. (For a
self-send the receiver's channel is the sender's own and receives the
frame twice.) -/
theorem receiver_delivery
    (ws : WsState) (db : Db) (s r : Uuid) (v : Json) (rs c : String) (nm : Option String)
    (hr : jsonIndex v "receiver_id" = Json.str rs)
    (hru : uuidParse rs = some r)
    (hc : jsonIndex v "content" = Json.str c)
    (hn : mapGet db.users s = some nm) :
    (∀ hrh : HandleId, mapGet ws.sessions r = some hrh →
      (mapGet ws.sessions s = none ∨
        ∃ hsh, mapGet ws.sessions s = some hsh ∧ hsh ≠ hrh) →
      ∃ saved : Message, ∃ conv_id : Uuid,
        (handle_client_message ws db noFail s (.parsed v)).res = .ok () ∧
        (handle_client_message ws db noFail s (.parsed v)).db.messages
          = db.messages ++ [saved] ∧
        saved.content = c ∧ saved.sender_id = s ∧ saved.conv_id = conv_id ∧
        queueOf (handle_client_message ws db noFail s (.parsed v)).ws hrh
          = queueOf ws hrh ++ [wsMessageJson saved conv_id s nm c] ∧
        jsonIndex (wsMessageJson saved conv_id s nm c) "type" = Json.str "message" ∧
        jsonIndex (wsMessageJson saved conv_id s nm c) "id"
          = Json.str (uuidToString saved.id) ∧
        jsonIndex (wsMessageJson saved conv_id s nm c) "sent_at"
          = Json.str (toString saved.sent_at) ∧
        jsonIndex (wsMessageJson saved conv_id s nm c) "conv_id"
          = Json.str (uuidToString conv_id) ∧
        jsonIndex (wsMessageJson saved conv_id s nm c) "sender_id"
          = Json.str (uuidToString s) ∧
        jsonIndex (wsMessageJson saved conv_id s nm c) "content" = Json.str c) ∧
    (mapGet ws.sessions r = none →
      (handle_client_message ws db noFail s (.parsed v)).res = .ok () ∧
      (∃ saved : Message,
        (handle_client_message ws db noFail s (.parsed v)).db.messages
          = db.messages ++ [saved] ∧ saved.content = c) ∧
      ∀ q : HandleId, mapGet ws.sessions s ≠ some q →
        queueOf (handle_client_message ws db noFail s (.parsed v)).ws q
          = queueOf ws q) := by
  obtain ⟨saved, conv_id, hcontent, hsender, hconv, hres, hmsgs, hws⟩ :=
    handle_client_message_ok ws db s r v rs c nm hr hru hc hn
  constructor
  · intro hrh hrget hdist
    refine ⟨saved, conv_id, hres, hmsgs, hcontent, hsender, hconv, ?_,
      rfl, rfl, rfl, rfl, rfl, rfl⟩
    rw [hws]
    simp only [hrget]
    rcases hdist with hnone | ⟨hsh, hsget, hne⟩
    · simp only [pushFrame_sessions, hnone]
      exact queueOf_pushFrame_self ws hrh _
    · simp only [pushFrame_sessions, hsget]
      rw [queueOf_pushFrame_ne _ _ _ _ (fun hh => hne hh.symm)]
      exact queueOf_pushFrame_self ws hrh _
  · intro hrnone
    refine ⟨hres, ⟨saved, hmsgs, hcontent⟩, ?_⟩
    intro q hq
    rw [hws]
    simp only [hrnone]
    rcases hsg : mapGet ws.sessions s with _ | hsh
    · rfl
    · have hqne : q ≠ hsh := fun hh => hq (hh ▸ hsg)
      exact queueOf_pushFrame_ne ws hsh q _ hqne

/-- Witness for C6's amended theorem: A (handle 0) sends to registered
B (handle 1); B's channel receives exactly one rendered frame. -/
theorem receiver_delivery_witness :
    ∃ saved : Message, ∃ conv_id : Uuid,
      (handle_client_message wsAB dbW noFail uA (.parsed payloadToB)).res = .ok () ∧
      (handle_client_message wsAB dbW noFail uA (.parsed payloadToB)).db.messages
        = dbW.messages ++ [saved] ∧
      saved.content = "hi" ∧ saved.sender_id = uA ∧ saved.conv_id = conv_id ∧
      queueOf (handle_client_message wsAB dbW noFail uA (.parsed payloadToB)).ws 1
        = queueOf wsAB 1 ++ [wsMessageJson saved conv_id uA (some "Alice") "hi"] ∧
      jsonIndex (wsMessageJson saved conv_id uA (some "Alice") "hi") "type"
        = Json.str "message" ∧
      jsonIndex (wsMessageJson saved conv_id uA (some "Alice") "hi") "id"
        = Json.str (uuidToString saved.id) ∧
      jsonIndex (wsMessageJson saved conv_id uA (some "Alice") "hi") "sent_at"
        = Json.str (toString saved.sent_at) ∧
      jsonIndex (wsMessageJson saved conv_id uA (some "Alice") "hi") "conv_id"
        = Json.str (uuidToString conv_id) ∧
      jsonIndex (wsMessageJson saved conv_id uA (some "Alice") "hi") "sender_id"
        = Json.str (uuidToString uA) ∧
      jsonIndex (wsMessageJson saved conv_id uA (some "Alice") "hi") "content"
        = Json.str "hi" :=
  (receiver_delivery wsAB dbW uA uB payloadToB
    "00000000-0000-0000-0000-000000000002" "hi" (some "Alice")
    rfl rfl rfl rfl).1 1 rfl (Or.inr ⟨0, rfl, by decide⟩)

/-- C7: for every valid routed message whose sender is registered at
routing time, the echo push delivers exactly one rendered frame to the
sender's channel, identical to the receiver's frame, both when the
receiver is offline and when the receiver is registered on a different
channel — the echo is independent of the receiver lookup's outcome. -/
theorem sender_echo
    (ws : WsState) (db : Db) (s r : Uuid) (v : Json) (rs c : String)
    (nm : Option String) (hsh : HandleId)
    (hr : jsonIndex v "receiver_id" = Json.str rs)
    (hru : uuidParse rs = some r)
    (hc : jsonIndex v "content" = Json.str c)
    (hn : mapGet db.users s = some nm)
    (hs : mapGet ws.sessions s = some hsh) :
    ∃ saved : Message, ∃ conv_id : Uuid,
      (handle_client_message ws db noFail s (.parsed v)).res = .ok () ∧
      saved.content = c ∧ saved.sender_id = s ∧
      (handle_client_message ws db noFail s (.parsed v)).db.messages
        = db.messages ++ [saved] ∧
      (mapGet ws.sessions r = none →
        queueOf (handle_client_message ws db noFail s (.parsed v)).ws hsh
          = queueOf ws hsh ++ [wsMessageJson saved conv_id s nm c]) ∧
      (∀ hrh : HandleId, mapGet ws.sessions r = some hrh → hrh ≠ hsh →
        queueOf (handle_client_message ws db noFail s (.parsed v)).ws hsh
          = queueOf ws hsh ++ [wsMessageJson saved conv_id s nm c]) := by
  obtain ⟨saved, conv_id, hcontent, hsender, _, hres, hmsgs, hws⟩ :=
    handle_client_message_ok ws db s r v rs c nm hr hru hc hn
  refine ⟨saved, conv_id, hres, hcontent, hsender, hmsgs, ?_, ?_⟩
  · intro hrnone
    rw [hws]
    simp only [hrnone, hs]
    exact queueOf_pushFrame_self ws hsh _
  · intro hrh hrget hne
    rw [hws]
    simp only [hrget, pushFrame_sessions, hs]
    rw [queueOf_pushFrame_self, queueOf_pushFrame_ne _ _ _ _ (fun hh => hne hh.symm)]

/-- Witness for C7 at A sending to offline B: A's channel (handle 0) gets
exactly one echo frame. -/
theorem sender_echo_witness :
    ∃ saved : Message, ∃ conv_id : Uuid,
      (handle_client_message wsA dbW noFail uA (.parsed payloadToB)).res = .ok () ∧
      saved.content = "hi" ∧ saved.sender_id = uA ∧
      (handle_client_message wsA dbW noFail uA (.parsed payloadToB)).db.messages
        = dbW.messages ++ [saved] ∧
      (mapGet wsA.sessions uB = none →
        queueOf (handle_client_message wsA dbW noFail uA (.parsed payloadToB)).ws 0
          = queueOf wsA 0 ++ [wsMessageJson saved conv_id uA (some "Alice") "hi"]) ∧
      (∀ hrh : HandleId, mapGet wsA.sessions uB = some hrh → hrh ≠ 0 →
        queueOf (handle_client_message wsA dbW noFail uA (.parsed payloadToB)).ws 0
          = queueOf wsA 0 ++ [wsMessageJson saved conv_id uA (some "Alice") "hi"]) :=
  sender_echo wsA dbW uA uB payloadToB
    "00000000-0000-0000-0000-000000000002" "hi" (some "Alice") 0
    rfl rfl rfl rfl rfl

/-- C9: a registered user sending to their own user id gets the rendered
frame pushed twice to their single channel — once by the receiver fan-out
and once by the sender echo — so the self-sender receives the message
twice. -/
theorem self_send_double_delivery
    (ws : WsState) (db : Db) (s : Uuid) (v : Json) (rs c : String)
    (nm : Option String) (hsh : HandleId)
    (hr : jsonIndex v "receiver_id" = Json.str rs)
    (hru : uuidParse rs = some s)
    (hc : jsonIndex v "content" = Json.str c)
    (hn : mapGet db.users s = some nm)
    (hs : mapGet ws.sessions s = some hsh) :
    ∃ saved : Message, ∃ conv_id : Uuid,
      (handle_client_message ws db noFail s (.parsed v)).res = .ok () ∧
      queueOf (handle_client_message ws db noFail s (.parsed v)).ws hsh
        = queueOf ws hsh ++ [wsMessageJson saved conv_id s nm c,
                             wsMessageJson saved conv_id s nm c] := by
  obtain ⟨saved, conv_id, _, _, _, hres, _, hws⟩ :=
    handle_client_message_ok ws db s s v rs c nm hr hru hc hn
  refine ⟨saved, conv_id, hres, ?_⟩
  rw [hws]
  simp only [hs, pushFrame_sessions]
  rw [queueOf_pushFrame_self, queueOf_pushFrame_self, List.append_assoc]
  rfl

/-- Witness for C9: A (handle 0) sends to A; the channel receives the
frame twice. -/
theorem self_send_double_delivery_witness :
    ∃ saved : Message, ∃ conv_id : Uuid,
      (handle_client_message wsA dbW noFail uA (.parsed payloadToA)).res = .ok () ∧
      queueOf (handle_client_message wsA dbW noFail uA (.parsed payloadToA)).ws 0
        = queueOf wsA 0 ++ [wsMessageJson saved conv_id uA (some "Alice") "hi",
                            wsMessageJson saved conv_id uA (some "Alice") "hi"] :=
  self_send_double_delivery wsA dbW uA payloadToA
    "00000000-0000-0000-0000-000000000001" "hi" (some "Alice") 0
    rfl rfl rfl rfl rfl

/-- Witness for C3 at two fresh users: the repeated and the swapped call
both return the created conversation's id without changing the state. -/
theorem get_or_create_conversation_witness :
    get_or_create_conversation noFail
        (get_or_create_conversation noFail dbW uA uB).2 uA uB
      = (.ok ⟨10⟩, (get_or_create_conversation noFail dbW uA uB).2) ∧
    get_or_create_conversation noFail
        (get_or_create_conversation noFail dbW uA uB).2 uB uA
      = (.ok ⟨10⟩, (get_or_create_conversation noFail dbW uA uB).2) := by
  have h := get_or_create_conversation_idempotent_symmetric dbW uA uB ⟨10⟩
    (get_or_create_conversation noFail dbW uA uB).2 rfl
  exact ⟨h.1, h.2.1⟩

/-- C10: `get_messages` returns the conversation's messages only to a
participant — any other authenticated requester gets `Forbidden` and no
message list — and a successful read returns the conversation's joined
messages ordered by `sent_at` ascending (non-decreasing timestamps). -/
theorem get_messages_access_and_order (db : Db) (user_id conv_id : Uuid) :
    ((¬ ∃ c ∈ db.conversations,
        c.id = conv_id ∧ (c.user1_id = user_id ∨ c.user2_id = user_id)) →
      get_messages db user_id conv_id = .error .Forbidden) ∧
    ((∃ c ∈ db.conversations,
        c.id = conv_id ∧ (c.user1_id = user_id ∨ c.user2_id = user_id)) →
      ∃ l : List MessageView,
        get_messages db user_id conv_id = .ok l ∧
        List.Pairwise (fun a b : MessageView => a.sent_at ≤ b.sent_at) l ∧
        List.Perm l
          ((db.messages.filter (fun m => decide (m.conv_id = conv_id))).filterMap
            (fun m => (mapGet db.users m.sender_id).map
              (fun name => MessageView.mk m.id m.sender_id name m.content m.sent_at)))) := by
  constructor
  · intro hnot
    have hany : db.conversations.any
        (fun c => decide (c.id = conv_id ∧ (c.user1_id = user_id ∨ c.user2_id = user_id)))
        = false := by
      rw [List.any_eq_false]
      intro c hcmem hp
      exact hnot ⟨c, hcmem, of_decide_eq_true hp⟩
    simp only [get_messages]
    rw [hany]
    rfl
  · rintro ⟨c, hcmem, hp⟩
    have hany : db.conversations.any
        (fun c => decide (c.id = conv_id ∧ (c.user1_id = user_id ∨ c.user2_id = user_id)))
        = true :=
      List.any_eq_true.mpr ⟨c, hcmem, decide_eq_true hp⟩
    refine ⟨((db.messages.filter (fun m => decide (m.conv_id = conv_id))).filterMap
        (fun m => (mapGet db.users m.sender_id).map
          (fun name => MessageView.mk m.id m.sender_id name m.content m.sent_at))).insertionSort
        (fun a b => a.sent_at ≤ b.sent_at), ?_, ?_, ?_⟩
    · simp only [get_messages]
      rw [hany]
      rfl
    · exact List.sorted_insertionSort _ _
    · exact List.perm_insertionSort _ _

/-- Witness for C10: the outside user `uC` is refused, the participant
`uA` receives the sorted message list. -/
theorem get_messages_access_and_order_witness :
    get_messages dbC10 uC ⟨7⟩ = .error .Forbidden ∧
    ∃ l : List MessageView,
      get_messages dbC10 uA ⟨7⟩ = .ok l ∧
      List.Pairwise (fun a b : MessageView => a.sent_at ≤ b.sent_at) l ∧
      List.Perm l
        ((dbC10.messages.filter (fun m => decide (m.conv_id = ⟨7⟩))).filterMap
          (fun m => (mapGet dbC10.users m.sender_id).map
            (fun name => MessageView.mk m.id m.sender_id name m.content m.sent_at))) :=
  ⟨(get_messages_access_and_order dbC10 uC ⟨7⟩).1 (by decide),
   (get_messages_access_and_order dbC10 uA ⟨7⟩).2 ⟨⟨⟨7⟩, uA, uB, 0⟩, by decide, by decide⟩⟩
